import Mathlib

/-!
Shallow embedding of `src/frontend/src/App.js` (the single source file of the
repository, a React view-state controller for the "Din Charya AI" UI).

Modelling conventions:
* The React component state hooks (lines 32-44 of App.js) become the fields of
  `AppState`; the initial `useState` arguments give `initialAppState`.
* Each async handler (`handleSendMessage`, `handleRoutineSave`, `loadWeather`,
  `loadNews`, `loadChatHistory`) is a total function from the pre-state and the
  outcome of its single awaited HTTP call to a `HandlerResult` recording the
  post-state, the HTTP requests issued, the toast notifications raised, and the
  `console.error` log lines emitted.  Totality of these functions models the
  catch-all `try/catch` blocks: no failure escapes a handler.
* JavaScript numbers appearing as literals are modelled as `Rat`; the routine
  form field values are strings in the source (DOM input values), so they stay
  `String` here.
* The in-flight behaviour of the UI (claim about at most one outstanding
  request) is modelled separately by a small event-step machine `step`/`run`
  over `UIState`, splitting each handler into its synchronous start phase and
  its completion phase, exactly as the `await` splits the JS function.
-/

namespace DinCharya

/-- ChatEntry as consumed by the UI: one user message paired with one assistant
response (fields read at App.js lines 271 and 276). -/
structure ChatEntry where
  message : String
  response : String
deriving DecidableEq, Repr

/-- Location object hardcoded in the chat POST body (App.js line 125). -/
structure Location where
  lat : Rat
  lon : Rat
deriving DecidableEq, Repr

/-- Hardcoded geolocation `{ lat: 28.6139, lon: 77.2090 }` from App.js line 125. -/
def defaultLocation : Location :=
  { lat := (286139 : Rat) / 10000, lon := (772090 : Rat) / 10000 }

/-- Body of the POST `/chat` request (App.js lines 122-126). -/
structure ChatRequestBody where
  message : String
  user_id : String
  location : Location
deriving DecidableEq, Repr

/-- The routine form state: four string-valued form fields (App.js lines 38-43;
DOM input and select values are strings). -/
structure RoutineForm where
  sleep_hours : String
  water_glasses : String
  exercise_minutes : String
  mood : String
deriving DecidableEq, Repr

/-- The initial (and post-success reset) routine form: all fields empty
(App.js lines 38-43 and 162). -/
def emptyRoutineForm : RoutineForm :=
  { sleep_hours := "", water_glasses := "", exercise_minutes := "", mood := "" }

/-- Body of the POST `/routine` request (App.js lines 156-160): `user_id`,
`date`, then the spread of the routine form state, whose four fields are the
raw form strings. -/
structure RoutineRequestBody where
  user_id : String
  date : String
  sleep_hours : String
  water_glasses : String
  exercise_minutes : String
  mood : String
deriving DecidableEq, Repr

/-- WeatherSnapshot as consumed by the UI (fields read at App.js lines
204-208, 330-339). -/
structure Weather where
  temperature : Rat
  feels_like : Rat
  humidity : Rat
  condition : String
  location : String
deriving DecidableEq, Repr

/-- NewsItem as consumed by the UI (fields read at App.js lines 464-467). -/
structure NewsItem where
  title : String
  source : String
  time : String
deriving DecidableEq, Repr

/-- Payload of GET `/news`: the handler reads `response.data.news`
(App.js line 99). -/
structure NewsResponse where
  news : List NewsItem
deriving DecidableEq, Repr

/-- An HTTP request issued by the app, identifying endpoint and body
(the five axios calls at App.js lines 89, 98, 107, 122, 156). -/
inductive Request where
  | getWeather
  | getNews
  | getChatHistory (user_id : String)
  | postChat (body : ChatRequestBody)
  | postRoutine (body : RoutineRequestBody)
deriving DecidableEq, Repr

/-- A toast notification raised through the `sonner` toast API. -/
inductive Toast where
  | success (msg : String)
  | error (msg : String)
  | info (msg : String)
deriving DecidableEq, Repr

/-- The component state of `App` (the `useState` hooks, App.js lines 32-44).
The speech-recognition ref is environment state, not component state, and is
not part of any claim, so it is not modelled. -/
structure AppState where
  message : String
  chatHistory : List ChatEntry
  isLoading : Bool
  isListening : Bool
  weather : Option Weather
  news : List NewsItem
  routine : RoutineForm
  activeTab : String
deriving DecidableEq, Repr

/-- Initial component state: the `useState` initial values (App.js lines 32-44). -/
def initialAppState : AppState :=
  { message := ""
    chatHistory := []
    isLoading := false
    isListening := false
    weather := none
    news := []
    routine := emptyRoutineForm
    activeTab := "daily" }

/-- Outcome of a single awaited HTTP call: either the parsed response payload
or a rejection (network or server failure), which in the source lands in the
`catch` block. -/
inductive RemoteResult (α : Type) where
  | ok (val : α)
  | err
deriving DecidableEq, Repr

/-- Observable result of running one handler to completion: the post component
state, the HTTP requests issued, the toasts raised, and the `console.error`
log lines (identified by their fixed first argument string). -/
structure HandlerResult where
  state : AppState
  requests : List Request
  toasts : List Toast
  logs : List String
deriving DecidableEq, Repr

/-- The `loadWeather` handler (App.js lines 87-94): GET `/weather`; on success
store the payload in the `weather` slice; on failure log
`Weather loading error:` and change nothing; no toast in either case. -/
def loadWeather (s : AppState) (r : RemoteResult Weather) : HandlerResult :=
  match r with
  | RemoteResult.ok w =>
      { state := { s with weather := some w }, requests := [Request.getWeather]
        toasts := [], logs := [] }
  | RemoteResult.err =>
      { state := s, requests := [Request.getWeather]
        toasts := [], logs := ["Weather loading error:"] }

/-- The `loadNews` handler (App.js lines 96-103): GET `/news`; on success store
`response.data.news` in the `news` slice; on failure log `News loading error:`
and change nothing; no toast in either case. -/
def loadNews (s : AppState) (r : RemoteResult NewsResponse) : HandlerResult :=
  match r with
  | RemoteResult.ok p =>
      { state := { s with news := p.news }, requests := [Request.getNews]
        toasts := [], logs := [] }
  | RemoteResult.err =>
      { state := s, requests := [Request.getNews]
        toasts := [], logs := ["News loading error:"] }

/-- The `loadChatHistory` handler (App.js lines 105-112): GET
`/chat/history/default_user`; on success replace the `chatHistory` slice with
the payload; on failure log `Chat history loading error:` and change nothing;
no toast in either case. -/
def loadChatHistory (s : AppState) (r : RemoteResult (List ChatEntry)) : HandlerResult :=
  match r with
  | RemoteResult.ok h =>
      { state := { s with chatHistory := h }
        requests := [Request.getChatHistory "default_user"]
        toasts := [], logs := [] }
  | RemoteResult.err =>
      { state := s, requests := [Request.getChatHistory "default_user"]
        toasts := [], logs := ["Chat history loading error:"] }

/-- JavaScript `String.prototype.trim` as used at App.js lines 115 and 315:
drop leading and trailing whitespace characters.  Modelled by structural
recursion over the character list so that it evaluates inside the kernel; the
ASCII whitespace set of `Char.isWhitespace` covers every input relevant here. -/
def jsTrim (s : String) : String :=
  String.mk (((s.toList.dropWhile Char.isWhitespace).reverse.dropWhile
      Char.isWhitespace).reverse)

/-- The POST `/chat` body built at App.js lines 122-126: the captured raw
message, the fixed user id, and the hardcoded location. -/
def chatRequestBody (userMessage : String) : ChatRequestBody :=
  { message := userMessage, user_id := "default_user", location := defaultLocation }

/-- Synchronous start phase of `handleSendMessage` (App.js lines 114-126, up
to the `await`): if the trimmed message is empty, return early having done
nothing; otherwise capture the raw message, clear the input, set the loading
flag, and issue the single POST `/chat`. -/
def sendMessageStart (s : AppState) : AppState × List Request :=
  if jsTrim s.message = "" then (s, [])
  else ({ s with message := "", isLoading := true },
        [Request.postChat (chatRequestBody s.message)])

/-- Completion phase of `handleSendMessage` (App.js lines 128-135): on success
prepend the returned entry to the chat history and toast success; on failure
log `Chat error:` and toast an error; either way the `finally` clears the
loading flag. -/
def sendMessageFinish (s : AppState) (r : RemoteResult ChatEntry) :
    AppState × List Toast × List String :=
  match r with
  | RemoteResult.ok entry =>
      ({ s with chatHistory := entry :: s.chatHistory, isLoading := false },
       [Toast.success "Got your recommendation!"], [])
  | RemoteResult.err =>
      ({ s with isLoading := false },
       [Toast.error "Failed to get recommendation. Please try again."],
       ["Chat error:"])

/-- The whole `handleSendMessage` handler run to completion (App.js lines
114-136), as the start phase followed, when a request was issued, by the
completion phase on the outcome of that request. -/
def handleSendMessage (s : AppState) (r : RemoteResult ChatEntry) : HandlerResult :=
  let p := sendMessageStart s
  if p.2 = [] then { state := p.1, requests := [], toasts := [], logs := [] }
  else
    let f := sendMessageFinish p.1 r
    { state := f.1, requests := p.2, toasts := f.2.1, logs := f.2.2 }

/-- The POST `/routine` body built at App.js lines 156-160: fixed user id, the
current ISO date string (`new Date().toISOString().split(..)[0]`, provided by
the environment as `today`), and the spread of the four raw form strings. -/
def routineRequestBody (s : AppState) (today : String) : RoutineRequestBody :=
  { user_id := "default_user", date := today
    sleep_hours := s.routine.sleep_hours
    water_glasses := s.routine.water_glasses
    exercise_minutes := s.routine.exercise_minutes
    mood := s.routine.mood }

/-- Completion phase of `handleRoutineSave` (App.js lines 161-166): on success
toast success and reset the form to all-empty; on failure log
`Routine save error:` and toast an error, leaving the form untouched. -/
def routineSaveFinish (s : AppState) (r : RemoteResult Unit) :
    AppState × List Toast × List String :=
  match r with
  | RemoteResult.ok _ =>
      ({ s with routine := emptyRoutineForm },
       [Toast.success "Routine saved successfully!"], [])
  | RemoteResult.err =>
      (s, [Toast.error "Failed to save routine."], ["Routine save error:"])

/-- The whole `handleRoutineSave` handler run to completion (App.js lines
154-167): unconditionally issue the single POST `/routine` with the current
form contents, then apply the completion phase to the outcome.  The source
performs no validation of the form fields before posting. -/
def handleRoutineSave (s : AppState) (today : String) (r : RemoteResult Unit) :
    HandlerResult :=
  let f := routineSaveFinish s r
  { state := f.1
    requests := [Request.postRoutine (routineRequestBody s today)]
    toasts := f.2.1, logs := f.2.2 }

/-- The chat history as rendered: `chatHistory.slice().reverse()` at App.js
line 267, so the stored newest-first list appears oldest-first on screen and
the newest exchange is last. -/
def displayedChatHistory (s : AppState) : List ChatEntry :=
  s.chatHistory.reverse

/-- The `disabled` predicate of the send button:
`!message.trim() || isLoading` (App.js line 315). -/
def sendButtonDisabled (s : AppState) : Bool :=
  (jsTrim s.message == "") || s.isLoading

/-- The `disabled` predicate of the routine save button: the `Button` at
App.js lines 446-451 has no `disabled` prop, so it is never disabled. -/
def routineSaveButtonDisabled (_ : AppState) : Bool :=
  false

/-- The mood values offered by the non-placeholder options of the mood select
(App.js lines 437-440); the placeholder option (line 436) has value `""`. -/
def moodOptions : List String :=
  ["excellent", "good", "okay", "low"]

/-- UI-level state for interleaving analysis: the component state together
with the number of outstanding (sent, not yet settled) chat and routine-save
requests.  The fetch API gives no cancellation, so a request stays in flight
until its promise settles. -/
structure UIState where
  app : AppState
  inflightChat : Nat
  inflightRoutine : Nat
deriving DecidableEq, Repr

/-- The UI state on mount, before any event. -/
def initialUIState : UIState :=
  { app := initialAppState, inflightChat := 0, inflightRoutine := 0 }

/-- UI events relevant to request interleaving: typing in the chat input
(always enabled, App.js lines 298-304), pressing Enter in the input (line 302,
calls `handleSendMessage` with no disabled guard), clicking the send button
(lines 313-319, guarded by its `disabled` prop), clicking the routine save
button (lines 446-451, never disabled), and the settling of an outstanding
chat or routine request. -/
inductive Event where
  | typeMessage (text : String)
  | pressEnter
  | clickSend
  | clickRoutineSave
  | chatReply (r : RemoteResult ChatEntry)
  | routineReply (r : RemoteResult Unit)
deriving DecidableEq, Repr

/-- Invoking `handleSendMessage` from the UI: run its synchronous start phase
and count the issued request (if any) as in flight. -/
def startChatFromUI (u : UIState) : UIState :=
  { u with app := (sendMessageStart u.app).1
           inflightChat := u.inflightChat + (sendMessageStart u.app).2.length }

/-- One UI event step.  A click on a disabled button fires no handler; a reply
event settles one outstanding request of its kind (and is a no-op when none is
outstanding); the completion phases are exactly those of the handlers. -/
def step (u : UIState) (e : Event) : UIState :=
  match e with
  | Event.typeMessage t => { u with app := { u.app with message := t } }
  | Event.pressEnter => startChatFromUI u
  | Event.clickSend =>
      if sendButtonDisabled u.app then u else startChatFromUI u
  | Event.clickRoutineSave =>
      if routineSaveButtonDisabled u.app then u
      else { u with inflightRoutine := u.inflightRoutine + 1 }
  | Event.chatReply r =>
      if u.inflightChat = 0 then u
      else { u with app := (sendMessageFinish u.app r).1
                    inflightChat := u.inflightChat - 1 }
  | Event.routineReply r =>
      if u.inflightRoutine = 0 then u
      else { u with app := (routineSaveFinish u.app r).1
                    inflightRoutine := u.inflightRoutine - 1 }

/-- Run a sequence of UI events from a state. -/
def run (u : UIState) (es : List Event) : UIState :=
  es.foldl step u

/-- Invariant maintained by every event other than `pressEnter`: at most one
chat request is outstanding, and while one is outstanding the loading flag is
set (which is what disables the send button). -/
def chatClickInv (u : UIState) : Prop :=
  u.inflightChat ≤ 1 ∧ (u.inflightChat = 1 → u.app.isLoading = true)

/-- A minimal JSON value model, enough to record whether a serialized field is
a JSON string or a JSON number. -/
inductive Json where
  | jstr (s : String)
  | jnum (q : Rat)
deriving DecidableEq, Repr

/-- JSON serialization of the POST `/routine` body as axios sends it
(App.js lines 156-160): `user_id` and `date` are string literals, and the four
spread routine form fields are DOM input/select values, hence JavaScript
strings, so every field serializes as a JSON string. -/
def routineBodyJson (b : RoutineRequestBody) : List (String × Json) :=
  [("user_id", Json.jstr b.user_id),
   ("date", Json.jstr b.date),
   ("sleep_hours", Json.jstr b.sleep_hours),
   ("water_glasses", Json.jstr b.water_glasses),
   ("exercise_minutes", Json.jstr b.exercise_minutes),
   ("mood", Json.jstr b.mood)]

/-- Concrete state with a message carrying leading and trailing whitespace and
a non-empty stored history, used to instantiate the chat theorems. -/
def sampleChatState : AppState :=
  { initialAppState with
      message := "  hi  "
      chatHistory := [{ message := "old", response := "old answer" }] }

/-- Concrete chat entry as returned by the backend. -/
def sampleEntry : ChatEntry :=
  { message := "  hi  ", response := "drink some water" }

/-- Concrete state whose routine form has numeric-looking strings and the
placeholder (empty) mood, reachable by filling the three number inputs and
leaving the mood select untouched. -/
def sampleRoutineState : AppState :=
  { initialAppState with
      routine :=
        { sleep_hours := "7.5", water_glasses := "8"
          exercise_minutes := "30", mood := "" } }

/-- The POST `/routine` body produced from `sampleRoutineState`. -/
def sampleRoutineBody : RoutineRequestBody :=
  { user_id := "default_user", date := "2026-10-12", sleep_hours := "7.5"
    water_glasses := "8", exercise_minutes := "30", mood := "" }

/-- Event sequence: type a message, press Enter, type another message while
the first request is still pending, press Enter again.  Nothing disables the
input or the Enter handler, so both key presses invoke `handleSendMessage`. -/
def doubleChatEvents : List Event :=
  [Event.typeMessage "hi", Event.pressEnter,
   Event.typeMessage "hi again", Event.pressEnter]

/-- Event sequence: click the (never disabled) routine save button twice
before either request settles. -/
def doubleRoutineEvents : List Event :=
  [Event.clickRoutineSave, Event.clickRoutineSave]

/-- Event list without any Enter key press, used to instantiate the
button-only guarantee. -/
def noEnterEvents : List Event :=
  [Event.clickSend, Event.chatReply RemoteResult.err]

/-- A UI state with a chat request outstanding and the loading flag set. -/
def busyUIState : UIState :=
  { app := { initialAppState with isLoading := true }
    inflightChat := 1, inflightRoutine := 0 }

lemma step_preserves_chatClickInv (u : UIState) (e : Event)
    (hne : e ≠ Event.pressEnter) (h : chatClickInv u) :
    chatClickInv (step u e) := by
  obtain ⟨h1, h2⟩ := h
  cases e with
  | typeMessage t => exact ⟨h1, h2⟩
  | pressEnter => exact absurd rfl hne
  | clickSend =>
      by_cases hd : sendButtonDisabled u.app = true
      · rw [show step u Event.clickSend = u from if_pos hd]
        exact ⟨h1, h2⟩
      · have hd2 : ((jsTrim u.app.message == "") || u.app.isLoading) = false :=
          Bool.eq_false_iff.mpr hd
        have hparts := Bool.or_eq_false_iff.mp hd2
        have htrim : ¬ jsTrim u.app.message = "" :=
          beq_eq_false_iff_ne.mp hparts.1
        have hload : u.app.isLoading = false := hparts.2
        have h0 : u.inflightChat = 0 := by
          by_contra hne0
          have hone : u.inflightChat = 1 := by omega
          rw [h2 hone] at hload
          exact Bool.noConfusion hload
        rw [show step u Event.clickSend = startChatFromUI u from if_neg hd]
        have hsms : sendMessageStart u.app =
            ({ u.app with message := "", isLoading := true },
             [Request.postChat (chatRequestBody u.app.message)]) := if_neg htrim
        refine ⟨?_, fun _ => ?_⟩
        · show u.inflightChat + (sendMessageStart u.app).2.length ≤ 1
          rw [hsms]
          show u.inflightChat + 1 ≤ 1
          omega
        · show (sendMessageStart u.app).1.isLoading = true
          rw [hsms]
  | clickRoutineSave =>
      have hstep : step u Event.clickRoutineSave =
          ({ u with inflightRoutine := u.inflightRoutine + 1 } : UIState) := by
        unfold step
        rw [if_neg (show ¬ routineSaveButtonDisabled u.app = true from
          fun hh => Bool.noConfusion hh)]
      rw [hstep]
      exact ⟨h1, h2⟩
  | chatReply r =>
      by_cases h0 : u.inflightChat = 0
      · rw [show step u (Event.chatReply r) = u from if_pos h0]
        exact ⟨h1, h2⟩
      · rw [show step u (Event.chatReply r) =
            { u with app := (sendMessageFinish u.app r).1
                     inflightChat := u.inflightChat - 1 } from if_neg h0]
        refine ⟨?_, fun hc => ?_⟩
        · show u.inflightChat - 1 ≤ 1
          omega
        · exact absurd (show u.inflightChat - 1 = 1 from hc) (by omega)
  | routineReply r =>
      by_cases h0 : u.inflightRoutine = 0
      · rw [show step u (Event.routineReply r) = u from if_pos h0]
        exact ⟨h1, h2⟩
      · rw [show step u (Event.routineReply r) =
            { u with app := (routineSaveFinish u.app r).1
                     inflightRoutine := u.inflightRoutine - 1 } from if_neg h0]
        refine ⟨h1, fun hc => ?_⟩
        have hl := h2 (show u.inflightChat = 1 from hc)
        show (routineSaveFinish u.app r).1.isLoading = true
        cases r with
        | ok v => exact hl
        | err => exact hl

lemma run_preserves_chatClickInv (es : List Event) (u : UIState)
    (hes : Event.pressEnter ∉ es) (h : chatClickInv u) :
    chatClickInv (run u es) := by
  induction es generalizing u with
  | nil => exact h
  | cons e es ih =>
      rw [List.mem_cons] at hes
      push_neg at hes
      exact ih (step u e) hes.2
        (step_preserves_chatClickInv u e (Ne.symm hes.1) h)

/-- Unfolding of the start phase on a message that is non-empty after
trimming: the input is cleared, the loading flag is set, and the single POST
`/chat` carrying the raw message is issued. -/
lemma sendMessageStart_of_nonblank (s : AppState) (h : jsTrim s.message ≠ "") :
    sendMessageStart s =
      ({ s with message := "", isLoading := true },
       [Request.postChat (chatRequestBody s.message)]) := if_neg h

/-- C1: for every message that is non-empty after trimming, a successful send
issues exactly one POST to `/chat`, the returned chat entry is prepended to
the stored chat history (newest first), and the displayed history (the stored
list reversed) gains the new entry at the end. -/
theorem C1_chat_send_success (s : AppState) (entry : ChatEntry)
    (h : jsTrim s.message ≠ "") :
    (handleSendMessage s (RemoteResult.ok entry)).requests =
      [Request.postChat (chatRequestBody s.message)] ∧
    (handleSendMessage s (RemoteResult.ok entry)).state.chatHistory =
      entry :: s.chatHistory ∧
    displayedChatHistory (handleSendMessage s (RemoteResult.ok entry)).state =
      displayedChatHistory s ++ [entry] := by
  unfold handleSendMessage
  rw [sendMessageStart_of_nonblank s h]
  simp [sendMessageFinish, displayedChatHistory]

/-- Witness for C1 at a concrete state: a padded message, a non-empty prior
history, and a concrete backend reply. -/
theorem C1_chat_send_success_witness :
    jsTrim sampleChatState.message ≠ "" ∧
    ((handleSendMessage sampleChatState (RemoteResult.ok sampleEntry)).requests =
      [Request.postChat (chatRequestBody sampleChatState.message)] ∧
    (handleSendMessage sampleChatState (RemoteResult.ok sampleEntry)).state.chatHistory =
      sampleEntry :: sampleChatState.chatHistory ∧
    displayedChatHistory
        (handleSendMessage sampleChatState (RemoteResult.ok sampleEntry)).state =
      displayedChatHistory sampleChatState ++ [sampleEntry]) :=
  ⟨by decide, C1_chat_send_success sampleChatState sampleEntry (by decide)⟩

/-- C2: for every chat send whose POST fails, the chat history after the
handler completes equals the chat history before it started, and the error
toast is raised. -/
theorem C2_chat_send_failure_history_unchanged (s : AppState)
    (h : jsTrim s.message ≠ "") :
    (handleSendMessage s RemoteResult.err).state.chatHistory = s.chatHistory ∧
    (handleSendMessage s RemoteResult.err).toasts =
      [Toast.error "Failed to get recommendation. Please try again."] := by
  unfold handleSendMessage
  rw [sendMessageStart_of_nonblank s h]
  simp [sendMessageFinish]

/-- Witness for C2 at a concrete state. -/
theorem C2_chat_send_failure_history_unchanged_witness :
    jsTrim sampleChatState.message ≠ "" ∧
    ((handleSendMessage sampleChatState RemoteResult.err).state.chatHistory =
      sampleChatState.chatHistory ∧
    (handleSendMessage sampleChatState RemoteResult.err).toasts =
      [Toast.error "Failed to get recommendation. Please try again."]) :=
  ⟨by decide, C2_chat_send_failure_history_unchanged sampleChatState (by decide)⟩

/-- C3: for every message that is empty or whitespace-only, triggering send
issues no HTTP request, raises no toast, logs nothing, and leaves the whole
component state unchanged, whatever the backend would have answered. -/
theorem C3_blank_message_noop (s : AppState) (r : RemoteResult ChatEntry)
    (h : jsTrim s.message = "") :
    handleSendMessage s r =
      { state := s, requests := [], toasts := [], logs := [] } := by
  unfold handleSendMessage
  rw [show sendMessageStart s = (s, []) from if_pos h]
  rfl

/-- Witness for C3 at a whitespace-only message. -/
theorem C3_blank_message_noop_witness :
    jsTrim "   " = "" ∧
    handleSendMessage { initialAppState with message := "   " }
        RemoteResult.err =
      { state := { initialAppState with message := "   " }
        requests := [], toasts := [], logs := [] } :=
  ⟨by decide,
   C3_blank_message_noop { initialAppState with message := "   " }
     RemoteResult.err (by decide)⟩

/-- C4: every routine save issues exactly one POST to `/routine`; on success
the four form fields are reset to all-empty and the success toast is raised;
on failure the form contents are left intact and the error toast is raised. -/
theorem C4_routine_save_reset_on_success_only (s : AppState) (today : String) :
    (∀ r : RemoteResult Unit,
      (handleRoutineSave s today r).requests =
        [Request.postRoutine (routineRequestBody s today)]) ∧
    (handleRoutineSave s today (RemoteResult.ok ())).state.routine =
      emptyRoutineForm ∧
    (handleRoutineSave s today (RemoteResult.ok ())).toasts =
      [Toast.success "Routine saved successfully!"] ∧
    (handleRoutineSave s today RemoteResult.err).state.routine = s.routine ∧
    (handleRoutineSave s today RemoteResult.err).toasts =
      [Toast.error "Failed to save routine."] :=
  ⟨fun _ => rfl, rfl, rfl, rfl, rfl⟩

/-- C5 as stated is false: the Enter-key handler is not guarded by the
loading flag, so pressing Enter again after retyping puts a second chat
request in flight, and the routine save button is never disabled, so two
clicks put two routine-save requests in flight. -/
theorem C5_counterexample :
    (run initialUIState doubleChatEvents).inflightChat = 2 ∧
    (run initialUIState doubleRoutineEvents).inflightRoutine = 2 := by
  constructor <;> rfl

/-- C5 (amended): clicking the send button while a chat request is
outstanding fires nothing, because the button is disabled whenever the
loading flag is set, and along any event sequence that never presses Enter at
most one chat request is ever in flight; but the Enter-key path bypasses the
disabled button, and the routine save button is never disabled, so two chat
requests or two routine-save requests can be in flight simultaneously. -/
theorem C5_amended_flight_guard (u : UIState) (hu : u.app.isLoading = true)
    (es : List Event) (hes : Event.pressEnter ∉ es) :
    step u Event.clickSend = u ∧
    (run initialUIState es).inflightChat ≤ 1 ∧
    (run initialUIState doubleChatEvents).inflightChat = 2 ∧
    (run initialUIState doubleRoutineEvents).inflightRoutine = 2 := by
  refine ⟨?_, ?_, rfl, rfl⟩
  · have hd : sendButtonDisabled u.app = true := by
      unfold sendButtonDisabled
      rw [hu]
      exact Bool.or_true _
    exact if_pos hd
  · exact (run_preserves_chatClickInv es initialUIState hes
      ⟨Nat.zero_le 1,
       fun hh => absurd (show (0 : Nat) = 1 from hh) (by decide)⟩).1

/-- Witness for the amended C5 at a concrete busy state and a concrete
Enter-free event list. -/
theorem C5_amended_flight_guard_witness :
    busyUIState.app.isLoading = true ∧
    Event.pressEnter ∉ noEnterEvents ∧
    (step busyUIState Event.clickSend = busyUIState ∧
     (run initialUIState noEnterEvents).inflightChat ≤ 1 ∧
     (run initialUIState doubleChatEvents).inflightChat = 2 ∧
     (run initialUIState doubleRoutineEvents).inflightRoutine = 2) :=
  ⟨rfl, by decide,
   C5_amended_flight_guard busyUIState rfl noEnterEvents (by decide)⟩

/-- C6 as stated is false: a failed weather fetch is caught and logged but
raises no toast at all, so not every backend failure is surfaced to the user
as a notification. -/
theorem C6_counterexample :
    (loadWeather initialAppState RemoteResult.err).toasts = [] ∧
    (loadWeather initialAppState RemoteResult.err).logs =
      ["Weather loading error:"] :=
  ⟨rfl, rfl⟩

/-- C6 (amended): every backend-call failure is caught at its call site and
logged (each failure handler is a total function producing a log line, never
an exception); the chat and routine failures additionally raise an error
toast, while the weather, news, and chat-history loader failures raise no
toast at all. -/
theorem C6_amended_failures_caught_and_logged (s : AppState) (today : String)
    (h : jsTrim s.message ≠ "") :
    ((handleSendMessage s RemoteResult.err).logs = ["Chat error:"] ∧
     (handleSendMessage s RemoteResult.err).toasts =
       [Toast.error "Failed to get recommendation. Please try again."]) ∧
    ((handleRoutineSave s today RemoteResult.err).logs =
       ["Routine save error:"] ∧
     (handleRoutineSave s today RemoteResult.err).toasts =
       [Toast.error "Failed to save routine."]) ∧
    ((loadWeather s RemoteResult.err).logs = ["Weather loading error:"] ∧
     (loadWeather s RemoteResult.err).toasts = []) ∧
    ((loadNews s RemoteResult.err).logs = ["News loading error:"] ∧
     (loadNews s RemoteResult.err).toasts = []) ∧
    ((loadChatHistory s RemoteResult.err).logs =
       ["Chat history loading error:"] ∧
     (loadChatHistory s RemoteResult.err).toasts = []) := by
  refine ⟨⟨?_, ?_⟩, ⟨rfl, rfl⟩, ⟨rfl, rfl⟩, ⟨rfl, rfl⟩, ⟨rfl, rfl⟩⟩
  · unfold handleSendMessage
    rw [sendMessageStart_of_nonblank s h]
    simp [sendMessageFinish]
  · unfold handleSendMessage
    rw [sendMessageStart_of_nonblank s h]
    simp [sendMessageFinish]

/-- Witness for the amended C6 at a concrete state. -/
theorem C6_amended_failures_caught_and_logged_witness :
    jsTrim sampleChatState.message ≠ "" ∧
    (((handleSendMessage sampleChatState RemoteResult.err).logs =
        ["Chat error:"] ∧
      (handleSendMessage sampleChatState RemoteResult.err).toasts =
        [Toast.error "Failed to get recommendation. Please try again."]) ∧
     ((handleRoutineSave sampleChatState "2026-10-12" RemoteResult.err).logs =
        ["Routine save error:"] ∧
      (handleRoutineSave sampleChatState "2026-10-12" RemoteResult.err).toasts =
        [Toast.error "Failed to save routine."]) ∧
     ((loadWeather sampleChatState RemoteResult.err).logs =
        ["Weather loading error:"] ∧
      (loadWeather sampleChatState RemoteResult.err).toasts = []) ∧
     ((loadNews sampleChatState RemoteResult.err).logs =
        ["News loading error:"] ∧
      (loadNews sampleChatState RemoteResult.err).toasts = []) ∧
     ((loadChatHistory sampleChatState RemoteResult.err).logs =
        ["Chat history loading error:"] ∧
      (loadChatHistory sampleChatState RemoteResult.err).toasts = [])) :=
  ⟨by decide,
   C6_amended_failures_caught_and_logged sampleChatState "2026-10-12"
     (by decide)⟩

/-- C7: a failed weather, news, or chat-history fetch is caught inside the
handler (which is total, so nothing is thrown), is logged, raises no toast,
and leaves the whole component state unchanged; in particular, on mount the
corresponding slices stay at their initial empty values. -/
theorem C7_loader_failures_leave_state (s : AppState) :
    ((loadWeather s RemoteResult.err).state = s ∧
     (loadWeather s RemoteResult.err).toasts = [] ∧
     (loadWeather s RemoteResult.err).logs = ["Weather loading error:"]) ∧
    ((loadNews s RemoteResult.err).state = s ∧
     (loadNews s RemoteResult.err).toasts = [] ∧
     (loadNews s RemoteResult.err).logs = ["News loading error:"]) ∧
    ((loadChatHistory s RemoteResult.err).state = s ∧
     (loadChatHistory s RemoteResult.err).toasts = [] ∧
     (loadChatHistory s RemoteResult.err).logs =
       ["Chat history loading error:"]) ∧
    ((loadWeather initialAppState RemoteResult.err).state.weather = none ∧
     (loadNews initialAppState RemoteResult.err).state.news = [] ∧
     (loadChatHistory initialAppState RemoteResult.err).state.chatHistory
       = []) :=
  ⟨⟨rfl, rfl, rfl⟩, ⟨rfl, rfl, rfl⟩, ⟨rfl, rfl, rfl⟩, rfl, rfl, rfl⟩

/-- C8 as stated is false: from the initial state, with all four routine form
fields empty, the save handler still issues the POST `/routine` (carrying
empty strings), and the save button is not disabled, so submitting with
unpopulated fields is possible. -/
theorem C8_counterexample :
    routineSaveButtonDisabled initialAppState = false ∧
    (handleRoutineSave initialAppState "2026-10-12" RemoteResult.err).requests
      = [Request.postRoutine
          { user_id := "default_user", date := "2026-10-12"
            sleep_hours := "", water_glasses := ""
            exercise_minutes := "", mood := "" }] :=
  ⟨rfl, rfl⟩

/-- C8 (amended): the routine save handler performs no validation at all: a
POST `/routine` is issued on every save trigger regardless of whether the
four form fields are populated, empty fields being sent as empty strings, and
the save button is never disabled. -/
theorem C8_amended_save_unvalidated (s : AppState) (today : String)
    (r : RemoteResult Unit) :
    routineSaveButtonDisabled s = false ∧
    (handleRoutineSave s today r).requests =
      [Request.postRoutine (routineRequestBody s today)] :=
  ⟨rfl, rfl⟩

/-- C9 as stated is false: the POST `/routine` body serializes every routine
field as a JSON string (the raw form values), not as numbers, and the mood is
not constrained to the four enum values; saving with the mood select on its
placeholder sends the empty string. -/
theorem C9_counterexample :
    (handleRoutineSave sampleRoutineState "2026-10-12"
        (RemoteResult.ok ())).requests =
      [Request.postRoutine sampleRoutineBody] ∧
    routineBodyJson sampleRoutineBody =
      [("user_id", Json.jstr "default_user"),
       ("date", Json.jstr "2026-10-12"),
       ("sleep_hours", Json.jstr "7.5"),
       ("water_glasses", Json.jstr "8"),
       ("exercise_minutes", Json.jstr "30"),
       ("mood", Json.jstr "")] ∧
    ¬ "" ∈ moodOptions :=
  ⟨rfl, rfl, by decide⟩

/-- C9 (amended): the POST `/routine` body carries `user_id`, the ISO date
string of the current day, and the four raw form strings; all six fields
serialize as JSON strings (sleep_hours, water_glasses and exercise_minutes
are not converted to numbers, and mood is whatever the select holds,
unvalidated). -/
theorem C9_amended_body_raw_strings (s : AppState) (today : String)
    (r : RemoteResult Unit) :
    (handleRoutineSave s today r).requests =
      [Request.postRoutine (routineRequestBody s today)] ∧
    routineBodyJson (routineRequestBody s today) =
      [("user_id", Json.jstr "default_user"),
       ("date", Json.jstr today),
       ("sleep_hours", Json.jstr s.routine.sleep_hours),
       ("water_glasses", Json.jstr s.routine.water_glasses),
       ("exercise_minutes", Json.jstr s.routine.exercise_minutes),
       ("mood", Json.jstr s.routine.mood)] :=
  ⟨rfl, rfl⟩

/-- C10: for every sent chat message (non-empty after trimming), the body of
the POST `/chat` carries the raw input text exactly as typed, untrimmed, with
the fixed user id and the hardcoded location; the input field is cleared, but
the captured payload is the pre-clear text. -/
theorem C10_raw_message_in_post_body (s : AppState)
    (r : RemoteResult ChatEntry) (h : jsTrim s.message ≠ "") :
    (handleSendMessage s r).requests =
      [Request.postChat
        { message := s.message, user_id := "default_user"
          location := defaultLocation }] ∧
    (handleSendMessage s r).state.message = "" := by
  unfold handleSendMessage
  rw [sendMessageStart_of_nonblank s h]
  cases r with
  | ok entry => simp [sendMessageFinish, chatRequestBody]
  | err => simp [sendMessageFinish, chatRequestBody]

/-- Witness for C10 at a message with leading and trailing whitespace: the
posted body carries the padded text unchanged. -/
theorem C10_raw_message_in_post_body_witness :
    jsTrim sampleChatState.message ≠ "" ∧
    ((handleSendMessage sampleChatState RemoteResult.err).requests =
      [Request.postChat
        { message := "  hi  ", user_id := "default_user"
          location := defaultLocation }] ∧
    (handleSendMessage sampleChatState RemoteResult.err).state.message = "") :=
  ⟨by decide,
   C10_raw_message_in_post_body sampleChatState RemoteResult.err (by decide)⟩

end DinCharya
